import Mathlib

/-!
Verification of the browser7-node client library (`src/index.js`).

The development shallowly embeds the client's core logic:

* `Browser7.waitForDelay` / `waitForSelector` / `waitForText` / `waitForClick`
  mirror the four static wait-action builders;
* `Browser7.createRenderPayload` mirrors the payload construction of
  `createRender` (each `if (options.x !== undefined) payload.x = options.x`
  becomes an `optEntry` segment appended in source order);
* `Browser7.decodeHtmlField` / `decodeFetchField` / `getRenderDecode` mirror
  the decode step of `getRender`, parametrised by a `Codec` of external
  primitives (base64, gzip, UTF-8, JSON) that the client only consumes;
* `Browser7.render` / `pollLoop` / `pollStep` mirror the polling lifecycle
  controller: the transport is a function `Nat → PollResult` giving the
  result of the i-th status fetch (0-based), and the optional progress
  callback is `Option (Event → Option String)`, where `f e = some msg`
  models the callback throwing `msg` (uncaught by the controller).

A run is summarised by a `RunLog`: the list of events delivered to the
callback, the list of sleeps (in ms) in order, the number of status
fetches performed, and the final outcome (returned result or thrown
error message).  The `renderId` and the wall-clock timestamps carried by
events are not modelled: they are opaque to all control flow.
-/

namespace Browser7

/-- A wait-action descriptor.  Each JS object key is an `Option` field:
`none` means the key is absent from the object. -/
structure WaitAction where
  type : String
  duration : Option Nat
  selector : Option String
  state : Option String
  text : Option String
  timeout : Option Nat
deriving DecidableEq

/-- `Browser7.waitForDelay(duration)`. -/
def waitForDelay (duration : Nat) : WaitAction :=
  { type := "delay", duration := some duration, selector := none,
    state := none, text := none, timeout := none }

/-- `Browser7.waitForSelector(selector, state = 'visible', timeout = 30000)`. -/
def waitForSelector (selector : String) (state : String) (timeout : Nat) : WaitAction :=
  { type := "selector", duration := none, selector := some selector,
    state := some state, text := none, timeout := some timeout }

/-- `Browser7.waitForText(text, selector, timeout = 30000)`.  The JS guard
`if (selector) action.selector = selector` adds the key only when the
argument is truthy: absent (`none`) and the empty string are both falsy. -/
def waitForText (text : String) (selector : Option String) (timeout : Nat) : WaitAction :=
  { type := "text", duration := none,
    selector :=
      match selector with
      | some s => if s = "" then none else some s
      | none => none,
    state := none, text := some text, timeout := some timeout }

/-- `Browser7.waitForClick(selector, timeout = 30000)`. -/
def waitForClick (selector : String) (timeout : Nat) : WaitAction :=
  { type := "click", duration := none, selector := some selector,
    state := none, text := none, timeout := some timeout }

/-- The options bag accepted by `createRender`; `none` models a key the
caller did not set (`undefined` in JS). -/
structure RenderOptions where
  countryCode : Option String
  city : Option String
  fetchUrls : Option (List String)
  waitFor : Option (List WaitAction)
  captcha : Option String
  blockImages : Option Bool
  includeScreenshot : Option Bool
  screenshotFormat : Option String
  screenshotQuality : Option Nat
  screenshotFullPage : Option Bool

/-- A JSON-ish value stored in the wire payload. -/
inductive JVal where
  | s (v : String)
  | b (v : Bool)
  | n (v : Nat)
  | strs (v : List String)
  | acts (v : List WaitAction)
deriving DecidableEq

/-- One conditional payload assignment
`if (options.k !== undefined) payload.k = options.k`:
the key/value pair is appended exactly when the option is set. -/
def optEntry {α : Type} (k : String) (f : α → JVal) (v : Option α) :
    List (String × JVal) :=
  match v with
  | some x => [(k, f x)]
  | none => []

/-- The request body built by `createRender(url, options)`: the key `url`
followed by the ten conditional assignments in source order. -/
def createRenderPayload (url : String) (o : RenderOptions) : List (String × JVal) :=
  ("url", JVal.s url) ::
    (optEntry "countryCode" JVal.s o.countryCode ++
      (optEntry "city" JVal.s o.city ++
        (optEntry "fetchUrls" JVal.strs o.fetchUrls ++
          (optEntry "waitFor" JVal.acts o.waitFor ++
            (optEntry "captcha" JVal.s o.captcha ++
              (optEntry "blockImages" JVal.b o.blockImages ++
                (optEntry "includeScreenshot" JVal.b o.includeScreenshot ++
                  (optEntry "screenshotFormat" JVal.s o.screenshotFormat ++
                    (optEntry "screenshotQuality" JVal.n o.screenshotQuality ++
                      (optEntry "screenshotFullPage" JVal.b o.screenshotFullPage ++
                        []))))))))))

/-- Minimal JSON value type, target of the external `JSON.parse`. -/
inductive Json where
  | null
  | bool (b : Bool)
  | num (n : Int)
  | str (s : String)
  | arr (xs : List Json)
  | obj (fs : List (String × Json))

/-- The external primitives `getRender` consumes, as capabilities:
`Buffer.from(s, 'base64')` (total: Node ignores invalid characters),
`zlib.gunzip` (partial: throws on non-gzip input, modelled as `none`),
`buffer.toString('utf-8')` (total: invalid bytes are replaced), and
`JSON.parse` (partial). -/
structure Codec where
  b64decode : String → List Nat
  gunzip : List Nat → Option (List Nat)
  utf8decode : List Nat → String
  jsonParse : String → Option Json

/-- The decode step of `getRender` for `result.html`: skipped when the
field is absent or falsy (empty string); on gunzip failure the caught
exception leaves the field untouched. -/
def decodeHtmlField (c : Codec) (h : Option String) : Option String :=
  match h with
  | none => none
  | some s =>
    if s = "" then some s
    else
      match c.gunzip (c.b64decode s) with
      | some bytes => some (c.utf8decode bytes)
      | none => some s

/-- The decode step of `getRender` for `result.fetchResponses`:
`Sum.inl` is the still-raw wire string, `Sum.inr` the parsed structure.
The field is replaced only when base64+gunzip+JSON.parse all succeed
(the `try` block assigns only on its last line). -/
def decodeFetchField (c : Codec) (fr : Option String) :
    Option (Sum String Json) :=
  match fr with
  | none => none
  | some s =>
    if s = "" then some (Sum.inl s)
    else
      match c.gunzip (c.b64decode s) with
      | none => some (Sum.inl s)
      | some bytes =>
        match c.jsonParse (c.utf8decode bytes) with
        | none => some (Sum.inl s)
        | some j => some (Sum.inr j)

/-- A status response as parsed from the wire, before `getRender`'s decode
step.  `rest` collects all remaining fields (`loadStrategy`,
`selectedCity`, `bandwidthMetrics`, ...), which `getRender` never touches. -/
structure WireResult (ρ : Type) where
  status : String
  retryAfter : Option Nat
  error : Option String
  html : Option String
  fetchResponses : Option String
  rest : ρ

/-- The object `getRender` returns for that wire response. -/
structure DecodedResult (ρ : Type) where
  status : String
  retryAfter : Option Nat
  error : Option String
  html : Option String
  fetchResponses : Option (Sum String Json)
  rest : ρ

/-- The mutation `getRender` applies to the parsed response body:
only `html` and `fetchResponses` are rewritten, in place. -/
def getRenderDecode {ρ : Type} (c : Codec) (r : WireResult ρ) : DecodedResult ρ :=
  { status := r.status, retryAfter := r.retryAfter, error := r.error,
    html := decodeHtmlField c r.html,
    fetchResponses := decodeFetchField c r.fetchResponses,
    rest := r.rest }

/-- The fields of a polled result that `render`'s loop itself reads
(`getRender` forwards them unchanged from the wire, see
`getRender_passthrough_frame`). -/
structure PollResult where
  status : String
  retryAfter : Option Nat
  error : Option String
deriving DecidableEq

/-- A progress event as delivered to `onProgress`.  The `renderId` and
`timestamp` fields (constant resp. wall-clock values) are not modelled. -/
inductive Event where
  | started
  | polling (attempt : Nat) (status : String) (retryAfter : Option Nat)
  | completed (status : String)
  | failed (status : String)
deriving DecidableEq

/-- How `render` finishes: resolved with a result, or rejected with an
error message. -/
inductive Outcome where
  | ok (r : PollResult)
  | err (msg : String)
deriving DecidableEq

/-- Observable summary of one `render` run: events delivered to the
callback (in order), sleeps in ms (in order), number of status fetches,
and the outcome. -/
structure RunLog where
  events : List Event
  delays : List Nat
  fetches : Nat
  outcome : Outcome
deriving DecidableEq

/-- `maxAttempts` in `render`. -/
def maxAttempts : Nat := 60

/-- The events an emission site delivers: none when no callback was
supplied, the event itself otherwise. -/
def emitted (cb : Option (Event → Option String)) (e : Event) : List Event :=
  match cb with
  | some _ => [e]
  | none => []

/-- What emitting `e` throws: `some msg` models the callback raising an
uncaught exception, `none` a normal return (or no callback). -/
def thrownBy (cb : Option (Event → Option String)) (e : Event) : Option String :=
  match cb with
  | some f => f e
  | none => none

/-- `result.error || 'Unknown error'`: JS `||` falls through on a falsy
left operand (absent or empty string). -/
def jsOrElse (o : Option String) (d : String) : String :=
  match o with
  | some s => if s = "" then d else s
  | none => d

/-- `result.retryAfter ? result.retryAfter * 1000 : 1000`: a present,
nonzero hint is honoured in seconds; `0` is falsy in JS. -/
def delayAfter (r : PollResult) : Nat :=
  match r.retryAfter with
  | some n => if n = 0 then 1000 else n * 1000
  | none => 1000

/-- One iteration of the polling loop, after the fetch of `r` (the
`attempt`-th, 0-based): emit `polling` (attempt + 1 is the 1-based number),
branch on `completed` / `failed`, otherwise sleep and continue with
`rest`.  A throwing callback propagates immediately. -/
def pollStep (cb : Option (Event → Option String)) (r : PollResult)
    (attempt : Nat) (rest : RunLog) : RunLog :=
  let pev := Event.polling (attempt + 1) r.status r.retryAfter
  match thrownBy cb pev with
  | some exn => ⟨emitted cb pev, [], 1, .err exn⟩
  | none =>
    if r.status = "completed" then
      match thrownBy cb (Event.completed r.status) with
      | some exn => ⟨emitted cb pev ++ emitted cb (Event.completed r.status), [], 1, .err exn⟩
      | none => ⟨emitted cb pev ++ emitted cb (Event.completed r.status), [], 1, .ok r⟩
    else if r.status = "failed" then
      match thrownBy cb (Event.failed r.status) with
      | some exn => ⟨emitted cb pev ++ emitted cb (Event.failed r.status), [], 1, .err exn⟩
      | none =>
        ⟨emitted cb pev ++ emitted cb (Event.failed r.status), [], 1,
          .err ("Render failed: " ++ jsOrElse r.error "Unknown error")⟩
    else
      ⟨emitted cb pev ++ rest.events, delayAfter r :: rest.delays,
        rest.fetches + 1, rest.outcome⟩

/-- The `for (let attempt = 0; attempt < maxAttempts; attempt++)` loop:
`fetch i` is the result of the i-th `getRender`; `fuel` is the number of
iterations left; exhausting it throws the timeout error. -/
def pollLoop (fetch : Nat → PollResult) (cb : Option (Event → Option String)) :
    Nat → Nat → RunLog
  | _, 0 =>
    ⟨[], [], 0, .err ("Render timed out after " ++ toString maxAttempts ++ " attempts")⟩
  | attempt, fuel + 1 =>
    pollStep cb (fetch attempt) attempt (pollLoop fetch cb (attempt + 1) fuel)

/-- `render(url, options, onProgress)` after a successful `createRender`:
emit `started`, sleep 2000 ms, run the polling loop. -/
def render (fetch : Nat → PollResult) (cb : Option (Event → Option String)) : RunLog :=
  match thrownBy cb Event.started with
  | some exn => ⟨emitted cb Event.started, [], 0, .err exn⟩
  | none =>
    let rest := pollLoop fetch cb 0 maxAttempts
    ⟨emitted cb Event.started ++ rest.events, 2000 :: rest.delays,
      rest.fetches, rest.outcome⟩

/-- A status on which the loop stops: `completed` or `failed`. -/
def isTerminal (r : PollResult) : Bool :=
  r.status == "completed" || r.status == "failed"

/-- A well-behaved progress callback: never throws. -/
def quietCb : Event → Option String := fun _ => none

/-- Mock transport for the terminal-ordering scenario:
statuses `[processing, processing, completed]` with `retryAfter` 1, 1. -/
def scenarioPPC : Nat → PollResult := fun i =>
  if i < 2 then ⟨"processing", some 1, none⟩ else ⟨"completed", none, none⟩

/-- Mock transport that always reports `processing`. -/
def alwaysProcessing : Nat → PollResult := fun _ => ⟨"processing", none, none⟩

/-- Mock transport that reports `failed` with `error: "blocked"` on the
first poll. -/
def blockedFailure : Nat → PollResult := fun _ => ⟨"failed", none, some "blocked"⟩

/-- Mock transport: one `processing` poll with `retryAfter` 3, then
`completed`. -/
def scenarioHint : Nat → PollResult := fun i =>
  if i = 0 then ⟨"processing", some 3, none⟩ else ⟨"completed", none, none⟩

/-- Mock transport that completes on the first poll. -/
def completesAtOnce : Nat → PollResult := fun _ => ⟨"completed", none, none⟩

/-- A misbehaving progress callback that throws on every event. -/
def throwingCb : Event → Option String := fun _ => some "callback exploded"

/-- A codec whose gunzip always fails: models feeding non-base64 /
non-gzip data through the decode chain. -/
def failCodec : Codec :=
  ⟨fun _ => [], fun _ => none, fun _ => "", fun _ => none⟩

/-- A codec on which the decode chain succeeds, recovering
`"<html></html>"` resp. an empty JSON array. -/
def roundtripCodec : Codec :=
  ⟨fun _ => [0], fun b => some b, fun _ => "<html></html>", fun _ => some (Json.arr [])⟩

theorem isTerminal_false_iff (r : PollResult) :
    isTerminal r = false ↔ r.status ≠ "completed" ∧ r.status ≠ "failed" := by
  simp [isTerminal]

theorem isTerminal_true_iff (r : PollResult) :
    isTerminal r = true ↔ r.status = "completed" ∨ r.status = "failed" := by
  simp [isTerminal]

theorem pollStep_nonterminal (cb : Option (Event → Option String))
    (hcb : ∀ e, thrownBy cb e = none) (r : PollResult) (a : Nat) (rest : RunLog)
    (hc : r.status ≠ "completed") (hfd : r.status ≠ "failed") :
    pollStep cb r a rest =
      ⟨emitted cb (Event.polling (a + 1) r.status r.retryAfter) ++ rest.events,
        delayAfter r :: rest.delays, rest.fetches + 1, rest.outcome⟩ := by
  simp [pollStep, hcb, hc, hfd]

theorem pollStep_completed (cb : Option (Event → Option String))
    (hcb : ∀ e, thrownBy cb e = none) (r : PollResult) (a : Nat) (rest : RunLog)
    (hc : r.status = "completed") :
    pollStep cb r a rest =
      ⟨emitted cb (Event.polling (a + 1) r.status r.retryAfter) ++
          emitted cb (Event.completed r.status),
        [], 1, .ok r⟩ := by
  simp [pollStep, hcb, hc]

theorem pollStep_failed (cb : Option (Event → Option String))
    (hcb : ∀ e, thrownBy cb e = none) (r : PollResult) (a : Nat) (rest : RunLog)
    (hfd : r.status = "failed") :
    pollStep cb r a rest =
      ⟨emitted cb (Event.polling (a + 1) r.status r.retryAfter) ++
          emitted cb (Event.failed r.status),
        [], 1, .err ("Render failed: " ++ jsOrElse r.error "Unknown error")⟩ := by
  simp [pollStep, hcb, hfd]

theorem pollLoop_terminal_spec (fetch : Nat → PollResult) (f : Event → Option String)
    (hf : ∀ e, f e = none) :
    ∀ (k a fuel : Nat), k < fuel →
      (∀ i, i < k → isTerminal (fetch (a + i)) = false) →
      isTerminal (fetch (a + k)) = true →
      pollLoop fetch (some f) a fuel =
        ⟨((List.range (k + 1)).map (fun i =>
            Event.polling (a + i + 1) (fetch (a + i)).status (fetch (a + i)).retryAfter))
          ++ [if (fetch (a + k)).status = "completed"
              then Event.completed (fetch (a + k)).status
              else Event.failed (fetch (a + k)).status],
         (List.range k).map (fun i => delayAfter (fetch (a + i))),
         k + 1,
         if (fetch (a + k)).status = "completed"
         then Outcome.ok (fetch (a + k))
         else Outcome.err ("Render failed: " ++ jsOrElse (fetch (a + k)).error "Unknown error")⟩ := by
  intro k
  induction k with
  | zero =>
    intro a fuel hlt hpre hterm
    obtain ⟨fuel', rfl⟩ : ∃ m, fuel = m + 1 := ⟨fuel - 1, by omega⟩
    rw [pollLoop]
    rcases (isTerminal_true_iff _).1 hterm with hc | hfd
    · simp only [Nat.add_zero] at hc
      rw [pollStep_completed (some f) (fun e => hf e) _ _ _ hc]
      simp [emitted, hc, List.range_succ, List.range_zero]
    · simp only [Nat.add_zero] at hfd
      rw [pollStep_failed (some f) (fun e => hf e) _ _ _ hfd]
      simp [emitted, hfd, List.range_succ, List.range_zero]
  | succ k ih =>
    intro a fuel hlt hpre hterm
    obtain ⟨fuel', rfl⟩ : ∃ m, fuel = m + 1 := ⟨fuel - 1, by omega⟩
    have h0 := hpre 0 (Nat.succ_pos k)
    obtain ⟨hc, hfd⟩ := (isTerminal_false_iff _).1 (by simpa using h0)
    rw [pollLoop, pollStep_nonterminal (some f) (fun e => hf e) _ _ _ hc hfd]
    have hshift : ∀ i, a + 1 + i = a + (i + 1) := fun i => by omega
    rw [ih (a + 1) fuel' (by omega)
      (fun i hi => by rw [hshift]; exact hpre (i + 1) (by omega))
      (by rw [hshift]; exact hterm)]
    simp only [hshift]
    simp [List.range_succ_eq_map, List.map_map, Function.comp, emitted,
      Nat.succ_eq_add_one]

theorem pollLoop_exhausts (fetch : Nat → PollResult) (f : Event → Option String)
    (hf : ∀ e, f e = none) :
    ∀ (fuel a : Nat),
      (∀ i, i < fuel → isTerminal (fetch (a + i)) = false) →
      pollLoop fetch (some f) a fuel =
        ⟨(List.range fuel).map (fun i =>
            Event.polling (a + i + 1) (fetch (a + i)).status (fetch (a + i)).retryAfter),
         (List.range fuel).map (fun i => delayAfter (fetch (a + i))),
         fuel,
         .err ("Render timed out after " ++ toString maxAttempts ++ " attempts")⟩ := by
  intro fuel
  induction fuel with
  | zero =>
    intro a _
    rw [pollLoop]
    simp
  | succ fuel ih =>
    intro a hpre
    have h0 := hpre 0 (Nat.succ_pos fuel)
    obtain ⟨hc, hfd⟩ := (isTerminal_false_iff _).1 (by simpa using h0)
    rw [pollLoop, pollStep_nonterminal (some f) (fun e => hf e) _ _ _ hc hfd]
    have hshift : ∀ i, a + 1 + i = a + (i + 1) := fun i => by omega
    rw [ih (a + 1) (fun i hi => by rw [hshift]; exact hpre (i + 1) (by omega))]
    simp only [hshift]
    simp [List.range_succ_eq_map, List.map_map, Function.comp, emitted,
      Nat.succ_eq_add_one]

theorem pollLoop_cb_invisible (fetch : Nat → PollResult) (f : Event → Option String)
    (hf : ∀ e, f e = none) :
    ∀ (fuel a : Nat),
      (pollLoop fetch (some f) a fuel).delays = (pollLoop fetch none a fuel).delays ∧
      (pollLoop fetch (some f) a fuel).fetches = (pollLoop fetch none a fuel).fetches ∧
      (pollLoop fetch (some f) a fuel).outcome = (pollLoop fetch none a fuel).outcome := by
  intro fuel
  induction fuel with
  | zero =>
    intro a
    rw [pollLoop]
    exact ⟨rfl, rfl, rfl⟩
  | succ fuel ih =>
    intro a
    by_cases hc : (fetch a).status = "completed"
    · rw [pollLoop, pollLoop,
        pollStep_completed (some f) (fun e => hf e) _ _ _ hc,
        pollStep_completed none (fun _ => rfl) _ _ _ hc]
      exact ⟨rfl, rfl, rfl⟩
    · by_cases hfd : (fetch a).status = "failed"
      · rw [pollLoop, pollLoop,
          pollStep_failed (some f) (fun e => hf e) _ _ _ hfd,
          pollStep_failed none (fun _ => rfl) _ _ _ hfd]
        exact ⟨rfl, rfl, rfl⟩
      · rw [pollLoop, pollLoop,
          pollStep_nonterminal (some f) (fun e => hf e) _ _ _ hc hfd,
          pollStep_nonterminal none (fun _ => rfl) _ _ _ hc hfd]
        obtain ⟨h1, h2, h3⟩ := ih (a + 1)
        exact ⟨by simp [h1], by simp [h2], by simp [h3]⟩

theorem render_some_quiet (fetch : Nat → PollResult) (f : Event → Option String)
    (hf : ∀ e, f e = none) :
    render fetch (some f) =
      ⟨Event.started :: (pollLoop fetch (some f) 0 maxAttempts).events,
        2000 :: (pollLoop fetch (some f) 0 maxAttempts).delays,
        (pollLoop fetch (some f) 0 maxAttempts).fetches,
        (pollLoop fetch (some f) 0 maxAttempts).outcome⟩ := by
  simp [render, thrownBy, hf, emitted]

theorem render_none_eq (fetch : Nat → PollResult) :
    render fetch none =
      ⟨(pollLoop fetch none 0 maxAttempts).events,
        2000 :: (pollLoop fetch none 0 maxAttempts).delays,
        (pollLoop fetch none 0 maxAttempts).fetches,
        (pollLoop fetch none 0 maxAttempts).outcome⟩ := by
  simp [render, thrownBy, emitted]

/-- Claim C1: with a progress callback, a run whose k-th status fetch
(0-based) is the first terminal one delivers exactly one `started`, then
one `polling` event per fetch with 1-based attempt numbers 1, ..., k+1,
then exactly one terminal event (`completed` with the result returned,
or `failed` with an error thrown); nothing out of order, nothing
skipped. -/
theorem render_event_order (fetch : Nat → PollResult) (f : Event → Option String)
    (hf : ∀ e, f e = none) (k : Nat) (hk : k < 60)
    (hpre : ∀ i, i < k → isTerminal (fetch i) = false)
    (hterm : isTerminal (fetch k) = true) :
    (render fetch (some f)).events =
      Event.started ::
        (((List.range (k + 1)).map (fun i =>
            Event.polling (i + 1) (fetch i).status (fetch i).retryAfter))
          ++ [if (fetch k).status = "completed"
              then Event.completed (fetch k).status
              else Event.failed (fetch k).status]) ∧
    (render fetch (some f)).fetches = k + 1 ∧
    (render fetch (some f)).outcome =
      (if (fetch k).status = "completed" then Outcome.ok (fetch k)
       else Outcome.err ("Render failed: " ++ jsOrElse (fetch k).error "Unknown error")) := by
  have hs := pollLoop_terminal_spec fetch f hf k 0 maxAttempts
    (by simpa [maxAttempts] using hk)
    (fun i hi => by simpa using hpre i hi)
    (by simpa using hterm)
  rw [render_some_quiet fetch f hf, hs]
  simp [emitted]

/-- Witness for C1 at the terminal-ordering scenario
`[processing, processing, completed]` with `retryAfter` 1, 1. -/
theorem render_event_order_witness :
    (render scenarioPPC (some quietCb)).events =
      [Event.started,
       Event.polling 1 "processing" (some 1),
       Event.polling 2 "processing" (some 1),
       Event.polling 3 "completed" none,
       Event.completed "completed"] ∧
    (render scenarioPPC (some quietCb)).outcome =
      Outcome.ok ⟨"completed", none, none⟩ := by
  have h := render_event_order scenarioPPC quietCb (fun _ => rfl) 2
    (by decide) (by decide) (by decide)
  exact ⟨by rw [h.1]; rfl, by rw [h.2.2]; rfl⟩

/-- Claim C2: when all 60 status fetches are non-terminal, `render`
performs exactly 60 poll attempts, emits exactly 60 `polling` events
when a callback is supplied, and throws the timeout error naming 60
attempts (with or without a callback). -/
theorem render_timeout_after_sixty (fetch : Nat → PollResult) (f : Event → Option String)
    (hf : ∀ e, f e = none)
    (hall : ∀ i, i < 60 → isTerminal (fetch i) = false) :
    (render fetch (some f)).fetches = 60 ∧
    (render fetch none).fetches = 60 ∧
    (render fetch (some f)).events =
      Event.started :: (List.range 60).map (fun i =>
        Event.polling (i + 1) (fetch i).status (fetch i).retryAfter) ∧
    (render fetch (some f)).outcome = .err "Render timed out after 60 attempts" ∧
    (render fetch none).outcome = .err "Render timed out after 60 attempts" := by
  have hs := pollLoop_exhausts fetch f hf maxAttempts 0
    (fun i hi => by simpa using hall i (by simpa [maxAttempts] using hi))
  obtain ⟨hd, hn, ho⟩ := pollLoop_cb_invisible fetch f hf maxAttempts 0
  rw [render_some_quiet fetch f hf, render_none_eq fetch, ← hn, ← ho, hs]
  refine ⟨rfl, rfl, by simp [maxAttempts], rfl, rfl⟩

/-- Witness for C2: a transport that always answers `processing`. -/
theorem render_timeout_after_sixty_witness :
    (render alwaysProcessing (some quietCb)).fetches = 60 ∧
    (render alwaysProcessing (some quietCb)).outcome =
      .err "Render timed out after 60 attempts" := by
  have h := render_timeout_after_sixty alwaysProcessing quietCb (fun _ => rfl)
    (by decide)
  exact ⟨h.1, h.2.2.2.1⟩

/-- Claim C5: when the k-th status fetch is the first terminal one and
reports `failed`, a supplied callback receives the `failed` event as the
final event before the throw, and `render` (with or without a callback)
throws `Render failed: <server error>`, defaulting to `Unknown error`
when the server supplied no (or an empty) error message. -/
theorem render_failed_emits_then_throws (fetch : Nat → PollResult)
    (f : Event → Option String) (hf : ∀ e, f e = none) (k : Nat) (hk : k < 60)
    (hpre : ∀ i, i < k → isTerminal (fetch i) = false)
    (hfail : (fetch k).status = "failed") :
    (render fetch (some f)).events =
      Event.started ::
        (((List.range (k + 1)).map (fun i =>
            Event.polling (i + 1) (fetch i).status (fetch i).retryAfter))
          ++ [Event.failed "failed"]) ∧
    (render fetch (some f)).outcome =
      .err ("Render failed: " ++ jsOrElse (fetch k).error "Unknown error") ∧
    (render fetch none).outcome =
      .err ("Render failed: " ++ jsOrElse (fetch k).error "Unknown error") := by
  have hs := pollLoop_terminal_spec fetch f hf k 0 maxAttempts
    (by simpa [maxAttempts] using hk)
    (fun i hi => by simpa using hpre i hi)
    (by simp [isTerminal_true_iff]; simp [hfail])
  obtain ⟨hd, hn, ho⟩ := pollLoop_cb_invisible fetch f hf maxAttempts 0
  rw [render_some_quiet fetch f hf, render_none_eq fetch, ← ho, hs]
  refine ⟨?_, ?_, ?_⟩
  · simp [emitted, hfail]
  · simp [hfail]
  · simp [hfail]

/-- Witness for C5: the transport fails on the first poll with
`error: "blocked"`. -/
theorem render_failed_emits_then_throws_witness :
    (render blockedFailure (some quietCb)).events =
      [Event.started, Event.polling 1 "failed" none, Event.failed "failed"] ∧
    (render blockedFailure (some quietCb)).outcome =
      .err "Render failed: blocked" := by
  have h := render_failed_emits_then_throws blockedFailure quietCb (fun _ => rfl) 0
    (by decide) (by decide) (by decide)
  exact ⟨by rw [h.1]; rfl, by rw [h.2.1]; rfl⟩

/-- Claim C6: every run that enters the loop first sleeps exactly
2000 ms, and after each non-terminal fetch sleeps `retryAfter * 1000` ms
when the hint is present and nonzero, else 1000 ms — both for runs that
reach a terminal status at the k-th fetch and for runs that exhaust all
60 attempts. -/
theorem render_sleep_schedule (fetch : Nat → PollResult) (f : Event → Option String)
    (hf : ∀ e, f e = none) :
    (∀ k, k < 60 →
      (∀ i, i < k → isTerminal (fetch i) = false) →
      isTerminal (fetch k) = true →
      (render fetch (some f)).delays =
        2000 :: (List.range k).map (fun i =>
          match (fetch i).retryAfter with
          | some n => if n = 0 then 1000 else n * 1000
          | none => 1000) ∧
      (render fetch none).delays =
        2000 :: (List.range k).map (fun i =>
          match (fetch i).retryAfter with
          | some n => if n = 0 then 1000 else n * 1000
          | none => 1000)) ∧
    ((∀ i, i < 60 → isTerminal (fetch i) = false) →
      (render fetch (some f)).delays =
        2000 :: (List.range 60).map (fun i =>
          match (fetch i).retryAfter with
          | some n => if n = 0 then 1000 else n * 1000
          | none => 1000) ∧
      (render fetch none).delays =
        2000 :: (List.range 60).map (fun i =>
          match (fetch i).retryAfter with
          | some n => if n = 0 then 1000 else n * 1000
          | none => 1000)) := by
  obtain ⟨hd, hn, ho⟩ := pollLoop_cb_invisible fetch f hf maxAttempts 0
  constructor
  · intro k hk hpre hterm
    have hs := pollLoop_terminal_spec fetch f hf k 0 maxAttempts
      (by simpa [maxAttempts] using hk)
      (fun i hi => by simpa using hpre i hi)
      (by simpa using hterm)
    rw [render_some_quiet fetch f hf, render_none_eq fetch, ← hd, hs]
    refine ⟨?_, ?_⟩ <;> (simp only [Nat.zero_add]; rfl)
  · intro hall
    have hs := pollLoop_exhausts fetch f hf maxAttempts 0
      (fun i hi => by simpa using hall i (by simpa [maxAttempts] using hi))
    rw [render_some_quiet fetch f hf, render_none_eq fetch, ← hd, hs]
    refine ⟨?_, ?_⟩ <;> (simp only [maxAttempts, Nat.zero_add]; rfl)

/-- Witness for C6: one `processing` poll carrying `retryAfter` 3, then
`completed`: the sleeps are exactly 2000 ms then 3000 ms. -/
theorem render_sleep_schedule_witness :
    (render scenarioHint (some quietCb)).delays = [2000, 3000] := by
  have h := (render_sleep_schedule scenarioHint quietCb (fun _ => rfl)).1 1
    (by decide) (by decide) (by decide)
  rw [h.1]; rfl

/-- Counterexample to C8 as stated: a callback that throws on `started`
aborts the run before any status fetch, so the transport calls, delays
and outcome all differ from the callback-free run of the same
invocation. -/
theorem render_callback_alters_flow_cex :
    ¬ ((render completesAtOnce (some throwingCb)).fetches =
         (render completesAtOnce none).fetches ∧
       (render completesAtOnce (some throwingCb)).delays =
         (render completesAtOnce none).delays ∧
       (render completesAtOnce (some throwingCb)).outcome =
         (render completesAtOnce none).outcome) := by
  decide

/-- Claim C8 (amended): for every callback that never throws, the
sequence of transport calls, the delays, and the final outcome of
`render` are the same as in a run of the same invocation with no
callback supplied. -/
theorem render_quiet_callback_invisible (fetch : Nat → PollResult)
    (f : Event → Option String) (hf : ∀ e, f e = none) :
    (render fetch (some f)).fetches = (render fetch none).fetches ∧
    (render fetch (some f)).delays = (render fetch none).delays ∧
    (render fetch (some f)).outcome = (render fetch none).outcome := by
  obtain ⟨hd, hn, ho⟩ := pollLoop_cb_invisible fetch f hf maxAttempts 0
  rw [render_some_quiet fetch f hf, render_none_eq fetch]
  exact ⟨hn, by rw [hd], ho⟩

/-- Witness for C8 (amended) at a concrete transport and the
never-throwing callback. -/
theorem render_quiet_callback_invisible_witness :
    (render completesAtOnce (some quietCb)).fetches =
      (render completesAtOnce none).fetches ∧
    (render completesAtOnce (some quietCb)).delays =
      (render completesAtOnce none).delays ∧
    (render completesAtOnce (some quietCb)).outcome =
      (render completesAtOnce none).outcome :=
  render_quiet_callback_invisible completesAtOnce quietCb (fun _ => rfl)

/-- Claim C3: the decode step of `getRender` leaves `html` and
`fetchResponses` untouched when absent or falsy, and leaves them
byte-for-byte equal to their raw incoming value when any step of the
decode chain (base64+gunzip, or JSON parsing for `fetchResponses`)
fails; the step is total, so no decoding error ever reaches the caller. -/
theorem getRender_decode_failure_inert (c : Codec) :
    decodeHtmlField c none = none ∧
    decodeHtmlField c (some "") = some "" ∧
    (∀ s, s ≠ "" → c.gunzip (c.b64decode s) = none →
      decodeHtmlField c (some s) = some s) ∧
    decodeFetchField c none = none ∧
    decodeFetchField c (some "") = some (Sum.inl "") ∧
    (∀ s, s ≠ "" → c.gunzip (c.b64decode s) = none →
      decodeFetchField c (some s) = some (Sum.inl s)) ∧
    (∀ s bytes, s ≠ "" → c.gunzip (c.b64decode s) = some bytes →
      c.jsonParse (c.utf8decode bytes) = none →
      decodeFetchField c (some s) = some (Sum.inl s)) := by
  refine ⟨rfl, rfl, ?_, rfl, rfl, ?_, ?_⟩
  · intro s hs hg
    simp [decodeHtmlField, hs, hg]
  · intro s hs hg
    simp [decodeFetchField, hs, hg]
  · intro s bytes hs hg hj
    simp [decodeFetchField, hs, hg, hj]

/-- Witness for C3 on a codec whose gunzip rejects everything: a
non-gzip field value passes through unchanged. -/
theorem getRender_decode_failure_inert_witness :
    decodeHtmlField failCodec (some "abc") = some "abc" ∧
    decodeFetchField failCodec (some "abc") = some (Sum.inl "abc") := by
  have h := getRender_decode_failure_inert failCodec
  exact ⟨h.2.2.1 "abc" (by decide) rfl, h.2.2.2.2.2.1 "abc" (by decide) rfl⟩

/-- Claim C4: when the wire `html` field holds base64(gzip(utf8(s))),
`getRender` returns `html = s` exactly; when `fetchResponses` holds
base64(gzip(utf8(t))) for a JSON text t parsing to the structure j,
`getRender` returns that parsed structure. -/
theorem getRender_decode_roundtrip {ρ : Type} (c : Codec) (r : WireResult ρ)
    (b s : String) (bytes : List Nat) (j : Json)
    (hb : b ≠ "")
    (hgz : c.gunzip (c.b64decode b) = some bytes)
    (hutf : c.utf8decode bytes = s) :
    (r.html = some b → (getRenderDecode c r).html = some s) ∧
    (c.jsonParse s = some j → r.fetchResponses = some b →
      (getRenderDecode c r).fetchResponses = some (Sum.inr j)) := by
  constructor
  · intro hh
    simp [getRenderDecode, decodeHtmlField, hh, hb, hgz, hutf]
  · intro hj hfr
    simp [getRenderDecode, decodeFetchField, hfr, hb, hgz, hutf, hj]

/-- Witness for C4 on a codec whose decode chain succeeds, recovering
`"<html></html>"` and an empty JSON array. -/
theorem getRender_decode_roundtrip_witness :
    (getRenderDecode roundtripCodec
      (⟨"completed", none, none, some "enc", some "enc", ()⟩ : WireResult Unit)).html =
        some "<html></html>" ∧
    (getRenderDecode roundtripCodec
      (⟨"completed", none, none, some "enc", some "enc", ()⟩ : WireResult Unit)).fetchResponses =
        some (Sum.inr (Json.arr [])) := by
  have h := getRender_decode_roundtrip roundtripCodec
    (⟨"completed", none, none, some "enc", some "enc", ()⟩ : WireResult Unit)
    "enc" "<html></html>" [0] (Json.arr []) (by decide) rfl rfl
  exact ⟨h.1 rfl, h.2 rfl rfl⟩

/-- Claim C10: `getRender` returns the parsed response with every field
other than `html` and `fetchResponses` exactly as received from the
server; those two fields can differ from the wire value only by being
replaced with their decoded forms. -/
theorem getRender_passthrough_frame {ρ : Type} (c : Codec) (r : WireResult ρ) :
    (getRenderDecode c r).status = r.status ∧
    (getRenderDecode c r).retryAfter = r.retryAfter ∧
    (getRenderDecode c r).error = r.error ∧
    (getRenderDecode c r).rest = r.rest ∧
    ((getRenderDecode c r).html = r.html ∨
      ∃ s bytes, r.html = some s ∧ s ≠ "" ∧
        c.gunzip (c.b64decode s) = some bytes ∧
        (getRenderDecode c r).html = some (c.utf8decode bytes)) ∧
    ((getRenderDecode c r).fetchResponses = Option.map Sum.inl r.fetchResponses ∨
      ∃ s bytes j, r.fetchResponses = some s ∧ s ≠ "" ∧
        c.gunzip (c.b64decode s) = some bytes ∧
        c.jsonParse (c.utf8decode bytes) = some j ∧
        (getRenderDecode c r).fetchResponses = some (Sum.inr j)) := by
  refine ⟨rfl, rfl, rfl, rfl, ?_, ?_⟩
  · rcases hh : r.html with _ | s
    · left
      simp [getRenderDecode, decodeHtmlField, hh]
    · by_cases hs : s = ""
      · left
        simp [getRenderDecode, decodeHtmlField, hh, hs]
      · rcases hg : c.gunzip (c.b64decode s) with _ | bytes
        · left
          simp [getRenderDecode, decodeHtmlField, hh, hs, hg]
        · right
          exact ⟨s, bytes, rfl, hs, hg,
            by simp [getRenderDecode, decodeHtmlField, hh, hs, hg]⟩
  · rcases hh : r.fetchResponses with _ | s
    · left
      simp [getRenderDecode, decodeFetchField, hh]
    · by_cases hs : s = ""
      · left
        simp [getRenderDecode, decodeFetchField, hh, hs]
      · rcases hg : c.gunzip (c.b64decode s) with _ | bytes
        · left
          simp [getRenderDecode, decodeFetchField, hh, hs, hg]
        · rcases hj : c.jsonParse (c.utf8decode bytes) with _ | j
          · left
            simp [getRenderDecode, decodeFetchField, hh, hs, hg, hj]
          · right
            exact ⟨s, bytes, j, rfl, hs, hg, hj,
              by simp [getRenderDecode, decodeFetchField, hh, hs, hg, hj]⟩

theorem keys_optEntry {α : Type} (k : String) (f : α → JVal) (v : Option α) :
    (optEntry k f v).map Prod.fst = if v.isSome then [k] else [] := by
  cases v <;> simp [optEntry]

theorem lookup_optEntry_ne {α : Type} (k k' : String) (f : α → JVal)
    (v : Option α) (l : List (String × JVal)) (h : k ≠ k') :
    List.lookup k (optEntry k' f v ++ l) = List.lookup k l := by
  have hb : (k == k') = false := beq_eq_false_iff_ne.mpr h
  cases v <;> simp [optEntry, List.lookup, hb]

theorem lookup_optEntry_some {α : Type} (k : String) (f : α → JVal) (x : α)
    (l : List (String × JVal)) :
    List.lookup k (optEntry k f (some x) ++ l) = some (f x) := by
  simp [optEntry, List.lookup]

theorem lookup_optEntry_none {α : Type} (k : String) (f : α → JVal)
    (l : List (String × JVal)) :
    List.lookup k (optEntry k f none ++ l) = List.lookup k l := by
  simp [optEntry]

theorem lookup_optEntry_ne_last {α : Type} (k k' : String) (f : α → JVal)
    (v : Option α) (h : k ≠ k') :
    List.lookup k (optEntry k' f v) = none := by
  have hb : (k == k') = false := beq_eq_false_iff_ne.mpr h
  cases v <;> simp [optEntry, List.lookup, hb]

theorem lookup_optEntry_self {α : Type} (k : String) (f : α → JVal) (v : Option α) :
    List.lookup k (optEntry k f v) = v.map f := by
  cases v <;> simp [optEntry, List.lookup]

/-- Claim C7: the submitted payload consists of the key `url` followed
by exactly the option keys the caller explicitly set, in source order
(unset keys are entirely absent, never null or defaulted), and each
key — the screenshot keys in particular — maps its own option value
independently of the others. -/
theorem createRender_payload_minimal (url : String) (o : RenderOptions) :
    (createRenderPayload url o).map Prod.fst =
      "url" :: ((if o.countryCode.isSome then ["countryCode"] else []) ++
        ((if o.city.isSome then ["city"] else []) ++
          ((if o.fetchUrls.isSome then ["fetchUrls"] else []) ++
            ((if o.waitFor.isSome then ["waitFor"] else []) ++
              ((if o.captcha.isSome then ["captcha"] else []) ++
                ((if o.blockImages.isSome then ["blockImages"] else []) ++
                  ((if o.includeScreenshot.isSome then ["includeScreenshot"] else []) ++
                    ((if o.screenshotFormat.isSome then ["screenshotFormat"] else []) ++
                      ((if o.screenshotQuality.isSome then ["screenshotQuality"] else []) ++
                        ((if o.screenshotFullPage.isSome then ["screenshotFullPage"] else []) ++
                          [])))))))))) ∧
    List.lookup "url" (createRenderPayload url o) = some (JVal.s url) ∧
    List.lookup "countryCode" (createRenderPayload url o) = o.countryCode.map JVal.s ∧
    List.lookup "city" (createRenderPayload url o) = o.city.map JVal.s ∧
    List.lookup "fetchUrls" (createRenderPayload url o) = o.fetchUrls.map JVal.strs ∧
    List.lookup "waitFor" (createRenderPayload url o) = o.waitFor.map JVal.acts ∧
    List.lookup "captcha" (createRenderPayload url o) = o.captcha.map JVal.s ∧
    List.lookup "blockImages" (createRenderPayload url o) = o.blockImages.map JVal.b ∧
    List.lookup "includeScreenshot" (createRenderPayload url o) =
      o.includeScreenshot.map JVal.b ∧
    List.lookup "screenshotFormat" (createRenderPayload url o) =
      o.screenshotFormat.map JVal.s ∧
    List.lookup "screenshotQuality" (createRenderPayload url o) =
      o.screenshotQuality.map JVal.n ∧
    List.lookup "screenshotFullPage" (createRenderPayload url o) =
      o.screenshotFullPage.map JVal.b := by
  refine ⟨?_, ?_, ?_, ?_, ?_, ?_, ?_, ?_, ?_, ?_, ?_, ?_⟩
  · simp [createRenderPayload, List.map_append, keys_optEntry]
  · simp [createRenderPayload, List.lookup]
  · cases hx : o.countryCode <;>
      simp [createRenderPayload, List.lookup, lookup_optEntry_ne,
        lookup_optEntry_some, lookup_optEntry_none, lookup_optEntry_ne_last,
        lookup_optEntry_self, hx]
  · cases hx : o.city <;>
      simp [createRenderPayload, List.lookup, lookup_optEntry_ne,
        lookup_optEntry_some, lookup_optEntry_none, lookup_optEntry_ne_last,
        lookup_optEntry_self, hx]
  · cases hx : o.fetchUrls <;>
      simp [createRenderPayload, List.lookup, lookup_optEntry_ne,
        lookup_optEntry_some, lookup_optEntry_none, lookup_optEntry_ne_last,
        lookup_optEntry_self, hx]
  · cases hx : o.waitFor <;>
      simp [createRenderPayload, List.lookup, lookup_optEntry_ne,
        lookup_optEntry_some, lookup_optEntry_none, lookup_optEntry_ne_last,
        lookup_optEntry_self, hx]
  · cases hx : o.captcha <;>
      simp [createRenderPayload, List.lookup, lookup_optEntry_ne,
        lookup_optEntry_some, lookup_optEntry_none, lookup_optEntry_ne_last,
        lookup_optEntry_self, hx]
  · cases hx : o.blockImages <;>
      simp [createRenderPayload, List.lookup, lookup_optEntry_ne,
        lookup_optEntry_some, lookup_optEntry_none, lookup_optEntry_ne_last,
        lookup_optEntry_self, hx]
  · cases hx : o.includeScreenshot <;>
      simp [createRenderPayload, List.lookup, lookup_optEntry_ne,
        lookup_optEntry_some, lookup_optEntry_none, lookup_optEntry_ne_last,
        lookup_optEntry_self, hx]
  · cases hx : o.screenshotFormat <;>
      simp [createRenderPayload, List.lookup, lookup_optEntry_ne,
        lookup_optEntry_some, lookup_optEntry_none, lookup_optEntry_ne_last,
        lookup_optEntry_self, hx]
  · cases hx : o.screenshotQuality <;>
      simp [createRenderPayload, List.lookup, lookup_optEntry_ne,
        lookup_optEntry_some, lookup_optEntry_none, lookup_optEntry_ne_last,
        lookup_optEntry_self, hx]
  · cases hx : o.screenshotFullPage <;>
      simp [createRenderPayload, List.lookup, lookup_optEntry_ne,
        lookup_optEntry_some, lookup_optEntry_none, lookup_optEntry_ne_last,
        lookup_optEntry_self, hx]

/-- Counterexample to C9 as stated: the empty string is a supplied
selector, yet `if (selector)` is falsy on it, so no `selector` key is
included. -/
theorem waitForText_selector_cex :
    ¬ ((waitForText "Hello" (some "") 30000).selector = some "") := by
  decide

/-- Claim C9 (amended): `waitForText(text)` with no selector yields a
descriptor without a `selector` key; a supplied non-empty selector is
included as `selector: sel`; a supplied empty selector is falsy in JS
and behaves like no selector.  The descriptor always has type `text`,
the given text, and the timeout (default 30000 at the call site). -/
theorem waitForText_shape (text : String) (timeout : Nat) :
    waitForText text none timeout =
      ⟨"text", none, none, none, some text, some timeout⟩ ∧
    waitForText text (some "") timeout =
      ⟨"text", none, none, none, some text, some timeout⟩ ∧
    (∀ sel, sel ≠ "" →
      waitForText text (some sel) timeout =
        ⟨"text", none, some sel, none, some text, some timeout⟩) := by
  refine ⟨rfl, rfl, ?_⟩
  intro sel hs
  simp [waitForText, hs]

/-- Witness for C9 (amended) at the spec's example inputs. -/
theorem waitForText_shape_witness :
    waitForText "Hello" (some ".sel") 30000 =
      ⟨"text", none, some ".sel", none, some "Hello", some 30000⟩ :=
  (waitForText_shape "Hello" 30000).2.2 ".sel" (by decide)

end Browser7
